import Mathlib

/-!
Verification of the natal-chart engine of `elizaos-plugins/plugin-mysticism`
(Python source `elizaos_plugin_mysticism/engines/astrology.py` plus the data
model in `types.py`) against its natural-language specification.

Modelling conventions
* Python floats are modelled as real numbers (`ℝ`); Python's banker's
  `round` is modelled by Mathlib's `round` (half-up).  The two agree except
  at exact half-ties, which none of the concrete inputs below produce.
* Python `%` on reals is floor-mod; `norm_deg` is defined through `Int.floor`.
* `math.atan2 y x` is modelled as the complex argument of `x + y*I`.
* Fallible functions (Python `raise`) return `Except AstroError`.
* The aspect-definition table is loaded from a JSON file that is external
  static configuration; following the spec it is modelled as an explicit
  list parameter (spec section 9 sanctions exactly this reframing).
-/

open scoped Classical

noncomputable section

-- ---------------------------------------------------------------------------
-- Constants and angle utilities
-- ---------------------------------------------------------------------------

def DEG2RAD : ℝ := Real.pi / 180

def RAD2DEG : ℝ := 180 / Real.pi

def J2000 : ℝ := 2451545.0

/-- Python `_norm_deg`: normalise an angle to `[0, 360)`.  The Python body
`deg % 360 if deg >= 0 else (deg % 360 + 360) % 360` is floor-mod 360 on
every input, which is what this definition computes. -/
def norm_deg (x : ℝ) : ℝ := x - 360 * ⌊x / 360⌋

/-- Rounding to two decimals, `round(x * 100) / 100` in the source. -/
def round2 (x : ℝ) : ℝ := (round (x * 100) : ℤ) / 100

/-- Python `int(...)`: truncation toward zero. -/
def pyint (x : ℝ) : ℤ := if 0 ≤ x then ⌊x⌋ else ⌈x⌉

/-- `math.atan2 y x`, modelled as the argument of the complex number
`x + y*I`, which has the same `(-π, π]` convention. -/
def atan2 (y x : ℝ) : ℝ := Complex.arg ⟨x, y⟩

-- ---------------------------------------------------------------------------
-- Data model (types.py)
-- ---------------------------------------------------------------------------

structure FeedbackEntry where
  element : String
  userText : String
  timestamp : ℝ

structure BirthData where
  year : ℤ
  month : ℤ
  day : Option ℤ
  hour : Option ℤ
  minute : Option ℤ
  latitude : Option ℝ
  longitude : Option ℝ
  timezone : Option ℝ

structure SignPosition where
  sign : String
  degrees : ℝ
  totalDegrees : ℝ

structure PlanetPosition where
  planet : String
  sign : String
  degrees : ℝ
  totalDegrees : ℝ
  house : ℕ
  retrograde : Bool

structure ChartAspect where
  planet1 : String
  planet2 : String
  aspectName : String
  aspectSymbol : String
  exactDegrees : ℝ
  actualDegrees : ℝ
  orb : ℝ
  nature : String

structure NatalChart where
  sun : PlanetPosition
  moon : PlanetPosition
  mercury : PlanetPosition
  venus : PlanetPosition
  mars : PlanetPosition
  jupiter : PlanetPosition
  saturn : PlanetPosition
  uranus : PlanetPosition
  neptune : PlanetPosition
  pluto : PlanetPosition
  ascendant : SignPosition
  midheaven : SignPosition
  aspects : List ChartAspect
  houseCusps : List ℝ

structure AstrologyReadingState where
  birthData : BirthData
  chart : NatalChart
  revealedPlanets : List String
  revealedHouses : List String
  userFeedback : List FeedbackEntry

/-- Aspect definition record, an entry of the externally supplied
aspect-definition table (`{name, symbol, degrees, orb, nature}`). -/
structure AspectDef where
  name : String
  symbol : String
  degrees : ℝ
  orb : ℝ
  nature : String

/-- Failure modes of the orbital-longitude functions (Python `raise`). -/
inductive AstroError where
  | unknownBody (pid : String)
  | invalidOperation

-- ---------------------------------------------------------------------------
-- Sign helpers
-- ---------------------------------------------------------------------------

def SIGN_ORDER : List String :=
  ["aries", "taurus", "gemini", "cancer", "leo", "virgo",
   "libra", "scorpio", "sagittarius", "capricorn", "aquarius", "pisces"]

/-- Python `degrees_to_sign`: convert ecliptic longitude to sign plus
degrees within sign.  `int(deg // 30)` is `⌊deg / 30⌋` for the
non-negative `deg` produced by the preceding normalisation. -/
def degrees_to_sign (total_degrees : ℝ) : SignPosition :=
  let deg := norm_deg total_degrees
  let sign_index : ℕ := (⌊deg / 30⌋).toNat
  let within_sign := deg - sign_index * 30
  { sign := SIGN_ORDER.getD sign_index ""
    degrees := within_sign
    totalDegrees := deg }

-- ---------------------------------------------------------------------------
-- Orbital elements at J2000.0
-- ---------------------------------------------------------------------------

structure OrbitalElements where
  L0 : ℝ
  L1 : ℝ
  a : ℝ
  e0 : ℝ
  e1 : ℝ
  I0 : ℝ
  I1 : ℝ
  W0 : ℝ
  W1 : ℝ
  w0 : ℝ
  w1 : ℝ

def mercuryElements : OrbitalElements :=
  { L0 := 252.25032350, L1 := 149472.67411175
    a := 0.38709927, e0 := 0.20563593, e1 := 0.00001906
    I0 := 7.00497902, I1 := -0.00594749
    W0 := 48.33076593, W1 := -0.12534081
    w0 := 77.45779628, w1 := 0.16047689 }

def venusElements : OrbitalElements :=
  { L0 := 181.97909950, L1 := 58517.81538729
    a := 0.72333566, e0 := 0.00677672, e1 := -0.00004107
    I0 := 3.39467605, I1 := -0.00078890
    W0 := 76.67984255, W1 := -0.27769418
    w0 := 131.60246718, w1 := 0.00268329 }

def earthElements : OrbitalElements :=
  { L0 := 100.46457166, L1 := 35999.37244981
    a := 1.00000261, e0 := 0.01671123, e1 := -0.00004392
    I0 := 0.00001531, I1 := -0.01294668
    W0 := 0.0, W1 := 0.0
    w0 := 102.93768193, w1 := 0.32327364 }

def marsElements : OrbitalElements :=
  { L0 := 355.44656299, L1 := 19140.30268499
    a := 1.52371034, e0 := 0.09339410, e1 := 0.00007882
    I0 := 1.84969142, I1 := -0.00813131
    W0 := 49.55953891, W1 := -0.29257343
    w0 := 336.05637041, w1 := 0.44441088 }

def jupiterElements : OrbitalElements :=
  { L0 := 34.39644051, L1 := 3034.74612775
    a := 5.20288700, e0 := 0.04838624, e1 := -0.00013253
    I0 := 1.30439695, I1 := -0.00183714
    W0 := 100.47390909, W1 := 0.20469106
    w0 := 14.72847983, w1 := 0.21252668 }

def saturnElements : OrbitalElements :=
  { L0 := 49.95424423, L1 := 1222.49362201
    a := 9.53667594, e0 := 0.05386179, e1 := -0.00050991
    I0 := 2.48599187, I1 := 0.00193609
    W0 := 113.66242448, W1 := -0.28867794
    w0 := 92.59887831, w1 := -0.41897216 }

def uranusElements : OrbitalElements :=
  { L0 := 313.23810451, L1 := 428.48202785
    a := 19.18916464, e0 := 0.04725744, e1 := -0.00004397
    I0 := 0.77263783, I1 := -0.00242939
    W0 := 74.01692503, W1 := 0.04240589
    w0 := 170.95427630, w1 := 0.40805281 }

def neptuneElements : OrbitalElements :=
  { L0 := 304.87997031, L1 := 218.45945325
    a := 30.06992276, e0 := 0.00859048, e1 := 0.00005105
    I0 := 1.77004347, I1 := 0.00035372
    W0 := 131.78422574, W1 := -0.01299630
    w0 := 44.96476227, w1 := -0.32241464 }

def plutoElements : OrbitalElements :=
  { L0 := 238.92903833, L1 := 145.20780515
    a := 39.48211675, e0 := 0.24882730, e1 := 0.00005170
    I0 := 17.14001206, I1 := 0.00004818
    W0 := 110.30393684, W1 := -0.01183482
    w0 := 224.06891629, w1 := -0.04062942 }

/-- The `ORBITAL_ELEMENTS` dict, as the lookup map it is only used as. -/
def ORBITAL_ELEMENTS (pid : String) : Option OrbitalElements :=
  if pid = "mercury" then some mercuryElements
  else if pid = "venus" then some venusElements
  else if pid = "earth" then some earthElements
  else if pid = "mars" then some marsElements
  else if pid = "jupiter" then some jupiterElements
  else if pid = "saturn" then some saturnElements
  else if pid = "uranus" then some uranusElements
  else if pid = "neptune" then some neptuneElements
  else if pid = "pluto" then some plutoElements
  else none

-- ---------------------------------------------------------------------------
-- Julian Day
-- ---------------------------------------------------------------------------

/-- Python `to_julian_day`.  `hour` and `minute` are real because the chart
assembler passes `hour - timezone` with a float time zone. -/
def to_julian_day (year month day : ℤ) (hour minute : ℝ) : ℝ :=
  let y : ℤ := if month ≤ 2 then year - 1 else year
  let m : ℤ := if month ≤ 2 then month + 12 else month
  let A : ℤ := Int.fdiv y 100
  let B : ℤ := 2 - A + Int.fdiv A 4
  let day_fraction : ℝ := (hour + minute / 60) / 24
  (pyint (365.25 * ((y : ℝ) + 4716)) : ℝ)
    + (pyint (30.6001 * ((m : ℝ) + 1)) : ℝ)
    + (day : ℝ)
    + day_fraction
    + (B : ℝ)
    - 1524.5

def julian_centuries (jd : ℝ) : ℝ := (jd - J2000) / 36525.0

-- ---------------------------------------------------------------------------
-- Kepler solver
-- ---------------------------------------------------------------------------

/-- One execution of the Python `for _ in range(n)` loop body of
`solve_kepler`, with the early `break` once the step is below `1e-12`. -/
def kepler_iter (M e : ℝ) : ℕ → ℝ → ℝ
  | 0, E => E
  | n + 1, E =>
    let dE := (E - e * Real.sin E - M) / (1 - e * Real.cos E)
    let E2 := E - dE
    if |dE| < 1e-12 then E2 else kepler_iter M e n E2

/-- Python `solve_kepler`: Newton-Raphson from the initial guess `E = M`,
at most 50 iterations. -/
def solve_kepler (M e : ℝ) : ℝ := kepler_iter M e 50 M

-- ---------------------------------------------------------------------------
-- Heliocentric ecliptic longitude (heliocentric_longitude)
-- ---------------------------------------------------------------------------

/-- Python `heliocentric_longitude`, transcribed line by line (including the
divided `sin_v` / `cos_v` forms fed to `atan2`). -/
def heliocentric_longitude (planet_id : String) (jd : ℝ) : Except AstroError ℝ :=
  match ORBITAL_ELEMENTS planet_id with
  | none => .error (.unknownBody planet_id)
  | some el =>
    let T := julian_centuries jd
    let L := norm_deg (el.L0 + el.L1 * T)
    let e := el.e0 + el.e1 * T
    let w := norm_deg (el.w0 + el.w1 * T)
    let W := norm_deg (el.W0 + el.W1 * T)
    let I := el.I0 + el.I1 * T
    let M := norm_deg (L - w)
    let M_rad := M * DEG2RAD
    let E := solve_kepler M_rad e
    let sin_v := (Real.sqrt (1 - e * e) * Real.sin E) / (1 - e * Real.cos E)
    let cos_v := (Real.cos E - e) / (1 - e * Real.cos E)
    let v := atan2 sin_v cos_v * RAD2DEG
    let l_helio := norm_deg (v + w - W)
    let I_rad := I * DEG2RAD
    let l_helio_rad := l_helio * DEG2RAD
    .ok (norm_deg
      (atan2 (Real.sin l_helio_rad * Real.cos I_rad) (Real.cos l_helio_rad)
        * RAD2DEG + W))

-- ---------------------------------------------------------------------------
-- Geocentric ecliptic longitude (geocentric_longitude)
-- ---------------------------------------------------------------------------

/-- Current-epoch eccentricity, `e0 + e1 * T`. -/
def elems_e (el : OrbitalElements) (T : ℝ) : ℝ := el.e0 + el.e1 * T

/-- Current-epoch longitude of perihelion, `norm(w0 + w1 * T)`. -/
def elems_w (el : OrbitalElements) (T : ℝ) : ℝ := norm_deg (el.w0 + el.w1 * T)

/-- Current-epoch longitude of the ascending node, `norm(W0 + W1 * T)`. -/
def elems_W (el : OrbitalElements) (T : ℝ) : ℝ := norm_deg (el.W0 + el.W1 * T)

/-- Mean anomaly in radians, `norm(L - w) * DEG2RAD`, as computed inside
`geocentric_longitude` for each body. -/
def body_M (el : OrbitalElements) (T : ℝ) : ℝ :=
  norm_deg (norm_deg (el.L0 + el.L1 * T) - elems_w el T) * DEG2RAD

/-- Eccentric anomaly of a body, via the Kepler solver. -/
def body_E (el : OrbitalElements) (T : ℝ) : ℝ :=
  solve_kepler (body_M el T) (elems_e el T)

/-- True anomaly in degrees,
`atan2(sqrt(1 - e^2) * sin(E), cos(E) - e) * RAD2DEG`, exactly the undivided
form used in `geocentric_longitude`. -/
def body_V (el : OrbitalElements) (T : ℝ) : ℝ :=
  atan2 (Real.sqrt (1 - elems_e el T * elems_e el T) * Real.sin (body_E el T))
      (Real.cos (body_E el T) - elems_e el T)
    * RAD2DEG

/-- The per-body heliocentric longitude that `geocentric_longitude` projects
with: `norm(v + w)` (no node term). -/
def body_proj_lon (el : OrbitalElements) (T : ℝ) : ℝ :=
  norm_deg (body_V el T + elems_w el T)

/-- Heliocentric radius `a * (1 - e * cos(E))`. -/
def body_R (el : OrbitalElements) (T : ℝ) : ℝ :=
  el.a * (1 - elems_e el T * Real.cos (body_E el T))

/-- Python `geocentric_longitude`: planar 2-D projection of planet and
Earth, then `atan2` of the difference vector.  The Earth branch raises
`ValueError` (modelled `invalidOperation`); the dict indexing
`ORBITAL_ELEMENTS[planet_id]` raises `KeyError` for an unknown identifier
(modelled `unknownBody`). -/
def geocentric_longitude (planet_id : String) (jd : ℝ) : Except AstroError ℝ :=
  if planet_id = "earth" then .error .invalidOperation
  else
    match ORBITAL_ELEMENTS planet_id with
    | none => .error (.unknownBody planet_id)
    | some p_el =>
      let T := julian_centuries jd
      let earth_lon := body_proj_lon earthElements T
      let earth_R := body_R earthElements T
      let p_lon := body_proj_lon p_el T
      let p_R := body_R p_el T
      let x := p_R * Real.cos (p_lon * DEG2RAD) - earth_R * Real.cos (earth_lon * DEG2RAD)
      let y := p_R * Real.sin (p_lon * DEG2RAD) - earth_R * Real.sin (earth_lon * DEG2RAD)
      .ok (norm_deg (atan2 y x * RAD2DEG))

/-- Total version of the geocentric computation for a body given directly by
its orbital elements; `geocentric_longitude` on a known non-Earth identifier
returns exactly this value, and the chart assembler only ever reaches this
case. -/
def geocentric_longitude_el (p_el : OrbitalElements) (jd : ℝ) : ℝ :=
  let T := julian_centuries jd
  let earth_lon := body_proj_lon earthElements T
  let earth_R := body_R earthElements T
  let p_lon := body_proj_lon p_el T
  let p_R := body_R p_el T
  let x := p_R * Real.cos (p_lon * DEG2RAD) - earth_R * Real.cos (earth_lon * DEG2RAD)
  let y := p_R * Real.sin (p_lon * DEG2RAD) - earth_R * Real.sin (earth_lon * DEG2RAD)
  norm_deg (atan2 y x * RAD2DEG)

-- ---------------------------------------------------------------------------
-- Sun longitude (sun_longitude)
-- ---------------------------------------------------------------------------

def sun_longitude (jd : ℝ) : ℝ :=
  let T := julian_centuries jd
  let L0 := norm_deg (280.46646 + 36000.76983 * T + 0.0003032 * T * T)
  let M := norm_deg (357.52911 + 35999.05029 * T - 0.0001537 * T * T)
  let M_rad := M * DEG2RAD
  let C :=
    (1.914602 - 0.004817 * T - 0.000014 * T * T) * Real.sin M_rad
      + (0.019993 - 0.000101 * T) * Real.sin (2 * M_rad)
      + 0.000289 * Real.sin (3 * M_rad)
  let sun_true_lon := norm_deg (L0 + C)
  let omega := 125.04 - 1934.136 * T
  let apparent := sun_true_lon - 0.00569 - 0.00478 * Real.sin (omega * DEG2RAD)
  norm_deg apparent

-- ---------------------------------------------------------------------------
-- Moon longitude (moon_longitude, Meeus 24-term series)
-- ---------------------------------------------------------------------------

def moon_longitude (jd : ℝ) : ℝ :=
  let T := julian_centuries jd
  let Lp := norm_deg (218.3164477 + 481267.88123421 * T - 0.0015786 * T * T
    + T * T * T / 538841 - T * T * T * T / 65194000)
  let D := norm_deg (297.8501921 + 445267.1114034 * T - 0.0018819 * T * T
    + T * T * T / 545868 - T * T * T * T / 113065000)
  let M := norm_deg (357.5291092 + 35999.0502909 * T - 0.0001536 * T * T
    + T * T * T / 24490000)
  let Mp := norm_deg (134.9633964 + 477198.8675055 * T + 0.0087414 * T * T
    + T * T * T / 69699 - T * T * T * T / 14712000)
  let F := norm_deg (93.2720950 + 483202.0175233 * T - 0.0036539 * T * T
    - T * T * T / 3526000 + T * T * T * T / 863310000)
  let D_rad := D * DEG2RAD
  let M_rad := M * DEG2RAD
  let Mp_rad := Mp * DEG2RAD
  let F_rad := F * DEG2RAD
  let sum_L :=
    6288774 * Real.sin Mp_rad
      + 1274027 * Real.sin (2 * D_rad - Mp_rad)
      + 658314 * Real.sin (2 * D_rad)
      + 213618 * Real.sin (2 * Mp_rad)
      - 185116 * Real.sin M_rad
      - 114332 * Real.sin (2 * F_rad)
      + 58793 * Real.sin (2 * D_rad - 2 * Mp_rad)
      + 57066 * Real.sin (2 * D_rad - M_rad - Mp_rad)
      + 53322 * Real.sin (2 * D_rad + Mp_rad)
      + 45758 * Real.sin (2 * D_rad - M_rad)
      - 40923 * Real.sin (M_rad - Mp_rad)
      - 34720 * Real.sin D_rad
      - 30383 * Real.sin (M_rad + Mp_rad)
      + 15327 * Real.sin (2 * D_rad - 2 * F_rad)
      - 12528 * Real.sin (Mp_rad + 2 * F_rad)
      + 10980 * Real.sin (Mp_rad - 2 * F_rad)
      + 10675 * Real.sin (4 * D_rad - Mp_rad)
      + 10034 * Real.sin (3 * Mp_rad)
      + 8548 * Real.sin (4 * D_rad - 2 * Mp_rad)
      - 7888 * Real.sin (2 * D_rad + M_rad - Mp_rad)
      - 6766 * Real.sin (2 * D_rad + M_rad)
      - 5163 * Real.sin (D_rad - Mp_rad)
      + 4987 * Real.sin (D_rad + M_rad)
      + 4036 * Real.sin (2 * D_rad - M_rad + Mp_rad)
  norm_deg (Lp + sum_L / 1000000)

-- ---------------------------------------------------------------------------
-- Retrograde detection (_is_retrograde)
-- ---------------------------------------------------------------------------

/-- Python `_is_retrograde` for a body with known elements (the only way the
chart assembler calls it; the sun/moon short-circuit is applied by the
assembler passing a literal `False` for those two). -/
def is_retrograde_el (el : OrbitalElements) (jd : ℝ) : Bool :=
  let lon_before := geocentric_longitude_el el (jd - 1)
  let lon_after := geocentric_longitude_el el (jd + 1)
  let diff0 := lon_after - lon_before
  let diff1 := if diff0 > 180 then diff0 - 360 else diff0
  let diff2 := if diff1 < -180 then diff1 + 360 else diff1
  decide (diff2 < 0)

-- ---------------------------------------------------------------------------
-- Obliquity, sidereal time, ascendant, midheaven
-- ---------------------------------------------------------------------------

def obliquity (jd : ℝ) : ℝ :=
  let T := julian_centuries jd
  23.4392911 - 0.0130042 * T - 1.64e-7 * T * T + 5.036e-7 * T * T * T

def local_sidereal_time (jd lon_deg : ℝ) : ℝ :=
  let T := julian_centuries jd
  let gmst := norm_deg (280.46061837 + 360.98564736629 * (jd - J2000)
    + 0.000387933 * T * T - T * T * T / 38710000)
  norm_deg (gmst + lon_deg)

def compute_ascendant (lst_deg lat_deg obl_deg : ℝ) : ℝ :=
  let lst_rad := lst_deg * DEG2RAD
  let lat_rad := lat_deg * DEG2RAD
  let obl_rad := obl_deg * DEG2RAD
  let y := -Real.cos lst_rad
  let x := Real.sin obl_rad * Real.tan lat_rad + Real.cos obl_rad * Real.sin lst_rad
  norm_deg (atan2 y x * RAD2DEG)

def compute_midheaven (lst_deg obl_deg : ℝ) : ℝ :=
  let lst_rad := lst_deg * DEG2RAD
  let obl_rad := obl_deg * DEG2RAD
  norm_deg (atan2 (Real.sin lst_rad) (Real.cos lst_rad * Real.cos obl_rad) * RAD2DEG)

-- ---------------------------------------------------------------------------
-- House cusps and house lookup (equal house system)
-- ---------------------------------------------------------------------------

/-- Python `_equal_house_cusps`: the twelve cusps `norm(asc + i * 30)`. -/
def equal_house_cusps (asc_deg : ℝ) : List ℝ :=
  (List.range 12).map (fun i : ℕ => norm_deg (asc_deg + (i : ℝ) * 30))

/-- The matching condition of one loop iteration of
`_house_for_longitude` for cusp pair `(cusp, next_cusp)`. -/
def house_cond (longitude cusp next_cusp : ℝ) : Prop :=
  if next_cusp > cusp then cusp ≤ longitude ∧ longitude < next_cusp
  else longitude ≥ cusp ∨ longitude < next_cusp

/-- Python `_house_for_longitude`: first matching cusp pair wins, with the
defensive fallback to house 1 when no pair matches. -/
def house_for_longitude (longitude : ℝ) (cusps : List ℝ) : ℕ :=
  match (List.range 12).find?
      (fun i => decide (house_cond longitude (cusps.getD i 0) (cusps.getD ((i + 1) % 12) 0))) with
  | some i => i + 1
  | none => 1

-- ---------------------------------------------------------------------------
-- Aspect calculation (calculate_aspects)
-- ---------------------------------------------------------------------------

/-- Angular separation between two positions, folded to at most 180. -/
def pair_separation (p1 p2 : PlanetPosition) : ℝ :=
  let s := |p1.totalDegrees - p2.totalDegrees|
  if s > 180 then 360 - s else s

/-- The ChartAspect record emitted for one (pair, definition) match, with
`orb = round(orb_distance * 100) / 100`. -/
def mk_aspect (p1 p2 : PlanetPosition) (d : AspectDef) : ChartAspect :=
  { planet1 := p1.planet
    planet2 := p2.planet
    aspectName := d.name
    aspectSymbol := d.symbol
    exactDegrees := d.degrees
    actualDegrees := pair_separation p1 p2
    orb := round2 |pair_separation p1 p2 - d.degrees|
    nature := d.nature }

/-- The aspects the inner definition loop emits for one planet pair, in
definition order: one entry per definition whose orb window contains the
separation. -/
def emit_aspects (p1 p2 : PlanetPosition) (defns : List AspectDef) : List ChartAspect :=
  defns.filterMap (fun d =>
    if |pair_separation p1 p2 - d.degrees| ≤ d.orb then some (mk_aspect p1 p2 d) else none)

/-- All index pairs `i < j` of the position list, in the discovery order of
the Python double loop. -/
def all_pairs : List PlanetPosition → List (PlanetPosition × PlanetPosition)
  | [] => []
  | p :: ps => (ps.map (fun q => (p, q))) ++ all_pairs ps

/-- The unsorted aspect list in discovery order (pair order, then
definition order). -/
def aspect_candidates (positions : List PlanetPosition) (defns : List AspectDef) :
    List ChartAspect :=
  (all_pairs positions).flatMap (fun pq => emit_aspects pq.1 pq.2 defns)

/-- Python `calculate_aspects`: emit per pair and definition, then
`aspects.sort(key=lambda a: a.orb)`.  Python list sort is stable; a stable
sort by a key is extensionally unique, so the stable insertion sort used
here computes the same list as Timsort. -/
def calculate_aspects (positions : List PlanetPosition) (defns : List AspectDef) :
    List ChartAspect :=
  List.insertionSort (fun a b => a.orb ≤ b.orb) (aspect_candidates positions defns)

-- ---------------------------------------------------------------------------
-- Position builder (_build_position)
-- ---------------------------------------------------------------------------

def build_position (planet_name : String) (longitude : ℝ) (house_cusps : List ℝ)
    (retrograde : Bool) : PlanetPosition :=
  let sign_pos := degrees_to_sign longitude
  { planet := planet_name
    sign := sign_pos.sign
    degrees := round2 sign_pos.degrees
    totalDegrees := round2 sign_pos.totalDegrees
    house := house_for_longitude longitude house_cusps
    retrograde := retrograde }

-- ---------------------------------------------------------------------------
-- Chart assembly (calculate_natal_chart)
-- ---------------------------------------------------------------------------

/-- Python `calculate_natal_chart`.  `defns` is the externally loaded
aspect-definition table (see the header note). -/
def calculate_natal_chart (defns : List AspectDef) (birth_data : BirthData) : NatalChart :=
  let day := birth_data.day.getD 1
  let hour := birth_data.hour.getD 12
  let minute := birth_data.minute.getD 0
  let latitude := birth_data.latitude.getD 0
  let longitude_geo := birth_data.longitude.getD 0
  let timezone := birth_data.timezone.getD 0
  let ut_hour := (hour : ℝ) - timezone
  let ut_minute := (minute : ℝ)
  let jd := to_julian_day birth_data.year birth_data.month day ut_hour ut_minute
  let obl := obliquity jd
  let lst := local_sidereal_time jd longitude_geo
  let asc_deg := compute_ascendant lst latitude obl
  let mc_deg := compute_midheaven lst obl
  let cusps := equal_house_cusps asc_deg
  let sun_lon := sun_longitude jd
  let moon_lon := moon_longitude jd
  let sun := build_position "sun" sun_lon cusps false
  let moon := build_position "moon" moon_lon cusps false
  let mercury := build_position "mercury" (geocentric_longitude_el mercuryElements jd) cusps
    (is_retrograde_el mercuryElements jd)
  let venus := build_position "venus" (geocentric_longitude_el venusElements jd) cusps
    (is_retrograde_el venusElements jd)
  let mars := build_position "mars" (geocentric_longitude_el marsElements jd) cusps
    (is_retrograde_el marsElements jd)
  let jupiter := build_position "jupiter" (geocentric_longitude_el jupiterElements jd) cusps
    (is_retrograde_el jupiterElements jd)
  let saturn := build_position "saturn" (geocentric_longitude_el saturnElements jd) cusps
    (is_retrograde_el saturnElements jd)
  let uranus := build_position "uranus" (geocentric_longitude_el uranusElements jd) cusps
    (is_retrograde_el uranusElements jd)
  let neptune := build_position "neptune" (geocentric_longitude_el neptuneElements jd) cusps
    (is_retrograde_el neptuneElements jd)
  let pluto := build_position "pluto" (geocentric_longitude_el plutoElements jd) cusps
    (is_retrograde_el plutoElements jd)
  let all_positions := [sun, moon, mercury, venus, mars, jupiter, saturn, uranus,
    neptune, pluto]
  { sun := sun, moon := moon, mercury := mercury, venus := venus, mars := mars
    jupiter := jupiter, saturn := saturn, uranus := uranus, neptune := neptune
    pluto := pluto
    ascendant := degrees_to_sign asc_deg
    midheaven := degrees_to_sign mc_deg
    aspects := calculate_aspects all_positions defns
    houseCusps := cusps }

-- ---------------------------------------------------------------------------
-- Reading state machine (AstrologyEngine)
-- ---------------------------------------------------------------------------

def DEFAULT_REVEAL_ORDER : List String :=
  ["sun", "moon", "ascendant", "mercury", "venus", "mars",
   "jupiter", "saturn", "uranus", "neptune", "pluto"]

/-- Python `AstrologyEngine._get_chart_position`. -/
def get_chart_position (planet_id : String) (chart : NatalChart) : Option PlanetPosition :=
  if planet_id = "ascendant" then
    some { planet := "ascendant", sign := chart.ascendant.sign
           degrees := chart.ascendant.degrees
           totalDegrees := chart.ascendant.totalDegrees
           house := 1, retrograde := false }
  else if planet_id = "midheaven" then
    some { planet := "midheaven", sign := chart.midheaven.sign
           degrees := chart.midheaven.degrees
           totalDegrees := chart.midheaven.totalDegrees
           house := 10, retrograde := false }
  else if planet_id = "sun" then some chart.sun
  else if planet_id = "moon" then some chart.moon
  else if planet_id = "mercury" then some chart.mercury
  else if planet_id = "venus" then some chart.venus
  else if planet_id = "mars" then some chart.mars
  else if planet_id = "jupiter" then some chart.jupiter
  else if planet_id = "saturn" then some chart.saturn
  else if planet_id = "uranus" then some chart.uranus
  else if planet_id = "neptune" then some chart.neptune
  else if planet_id = "pluto" then some chart.pluto
  else none

/-- Python `AstrologyEngine.start_reading`. -/
def start_reading (defns : List AspectDef) (birth_data : BirthData) : AstrologyReadingState :=
  { birthData := birth_data
    chart := calculate_natal_chart defns birth_data
    revealedPlanets := []
    revealedHouses := []
    userFeedback := [] }

/-- Python `AstrologyEngine.get_next_reveal`: the first identifier of the
fixed order that is not yet revealed, with its chart position. -/
def get_next_reveal (state : AstrologyReadingState) :
    Option (String × Option PlanetPosition) :=
  match DEFAULT_REVEAL_ORDER.find? (fun pid => !(state.revealedPlanets.contains pid)) with
  | some pid => some (pid, get_chart_position pid state.chart)
  | none => none

/-- Python `AstrologyEngine.record_feedback`: functional update appending
the identifier and the feedback entry, with no validation whatsoever. -/
def record_feedback (state : AstrologyReadingState) (planet_id : String)
    (feedback : FeedbackEntry) : AstrologyReadingState :=
  { birthData := state.birthData
    chart := state.chart
    revealedPlanets := state.revealedPlanets ++ [planet_id]
    revealedHouses := state.revealedHouses
    userFeedback := state.userFeedback ++ [feedback] }

/-- Python `AstrologyEngine.is_complete`. -/
def is_complete (state : AstrologyReadingState) : Bool :=
  DEFAULT_REVEAL_ORDER.length ≤ state.revealedPlanets.length

/-- The canonical reveal cycle of the spec: repeatedly ask `get_next_reveal`
and feed the returned planet back through `record_feedback` (feedback text
supplied by an arbitrary stream `fb`). -/
def reveal_cycle (defns : List AspectDef) (birth_data : BirthData)
    (fb : ℕ → FeedbackEntry) : ℕ → AstrologyReadingState
  | 0 => start_reading defns birth_data
  | n + 1 =>
    let s := reveal_cycle defns birth_data fb n
    match get_next_reveal s with
    | some r => record_feedback s r.1 (fb n)
    | none => s

/-- A sequence of `record_feedback` calls with the given identifiers (all
with the same feedback entry, which the revealed-planets list ignores). -/
def record_seq (state : AstrologyReadingState) (ids : List String)
    (feedback : FeedbackEntry) : AstrologyReadingState :=
  ids.foldl (fun st pid => record_feedback st pid feedback) state

-- ---------------------------------------------------------------------------
-- Basic lemmas about the angle utilities
-- ---------------------------------------------------------------------------

lemma norm_deg_nonneg (x : ℝ) : 0 ≤ norm_deg x := by
  have h := Int.floor_le (x / 360)
  unfold norm_deg
  linarith

lemma norm_deg_lt_360 (x : ℝ) : norm_deg x < 360 := by
  have h := Int.lt_floor_add_one (x / 360)
  unfold norm_deg
  linarith

lemma norm_deg_eq_self {x : ℝ} (h0 : 0 ≤ x) (h1 : x < 360) : norm_deg x = x := by
  unfold norm_deg
  have hf : ⌊x / 360⌋ = 0 := by
    rw [Int.floor_eq_zero_iff]
    constructor
    · positivity
    · rw [div_lt_one (by norm_num : (0:ℝ) < 360)]; exact h1
  rw [hf]
  push_cast
  ring

lemma norm_deg_sub_360 {x : ℝ} (h0 : 360 ≤ x) (h1 : x < 720) : norm_deg x = x - 360 := by
  unfold norm_deg
  have hf : ⌊x / 360⌋ = 1 := by
    rw [Int.floor_eq_iff]
    constructor
    · push_cast
      rw [le_div_iff (by norm_num : (0:ℝ) < 360)]
      linarith
    · push_cast
      rw [div_lt_iff (by norm_num : (0:ℝ) < 360)]
      linarith
  rw [hf]
  push_cast
  ring

lemma norm_deg_neg_window {x : ℝ} (h0 : -360 ≤ x) (h1 : x < 0) : norm_deg x = x + 360 := by
  unfold norm_deg
  have hf : ⌊x / 360⌋ = -1 := by
    rw [Int.floor_eq_iff]
    constructor
    · push_cast
      rw [le_div_iff (by norm_num : (0:ℝ) < 360)]
      linarith
    · push_cast
      rw [div_lt_iff (by norm_num : (0:ℝ) < 360)]
      linarith
  rw [hf]
  push_cast
  ring

lemma norm_deg_zero : norm_deg 0 = 0 := norm_deg_eq_self le_rfl (by norm_num)

lemma norm_deg_idem (x : ℝ) : norm_deg (norm_deg x) = norm_deg x :=
  norm_deg_eq_self (norm_deg_nonneg x) (norm_deg_lt_360 x)

lemma norm_deg_add_360 (x : ℝ) : norm_deg (x + 360) = norm_deg x := by
  unfold norm_deg
  have : (x + 360) / 360 = x / 360 + 1 := by ring
  rw [this, Int.floor_add_one]
  push_cast
  ring

lemma round2_nonneg {x : ℝ} (h : 0 ≤ x) : 0 ≤ round2 x := by
  unfold round2
  have : (0:ℤ) ≤ round (x * 100) := by
    rw [round_eq, Int.le_floor]
    push_cast
    nlinarith
  positivity

lemma atan2_zero_of_pos {x : ℝ} (hx : 0 < x) : atan2 0 x = 0 := by
  unfold atan2
  have hc : (⟨x, 0⟩ : ℂ) = (x : ℂ) := by
    apply Complex.ext <;> simp
  rw [hc, Complex.arg_ofReal_of_nonneg hx.le]

-- ---------------------------------------------------------------------------
-- State machine helper lemmas
-- ---------------------------------------------------------------------------

lemma record_feedback_revealedPlanets (s : AstrologyReadingState) (pid : String)
    (fb : FeedbackEntry) :
    (record_feedback s pid fb).revealedPlanets = s.revealedPlanets ++ [pid] := rfl

lemma record_seq_revealedPlanets (ids : List String) :
    ∀ (s : AstrologyReadingState) (fb : FeedbackEntry),
      (record_seq s ids fb).revealedPlanets = s.revealedPlanets ++ ids := by
  induction ids with
  | nil => intro s fb; simp [record_seq]
  | cons pid rest ih =>
    intro s fb
    show (record_seq (record_feedback s pid fb) rest fb).revealedPlanets = _
    rw [ih, record_feedback_revealedPlanets]
    simp

lemma orbital_elements_earth : ORBITAL_ELEMENTS "earth" = some earthElements := by rfl

-- ---------------------------------------------------------------------------
-- C7: error behaviour of the longitude functions
-- ---------------------------------------------------------------------------

/-- C7: `heliocentric_longitude` and `geocentric_longitude` fail with an
UnknownBody error on every identifier without an orbital-elements record,
`geocentric_longitude` fails with an InvalidOperation error on "earth", and
in the failure cases no result value is produced. -/
theorem longitude_error_handling :
    (∀ pid jd, ORBITAL_ELEMENTS pid = none →
      heliocentric_longitude pid jd = .error (.unknownBody pid) ∧
      geocentric_longitude pid jd = .error (.unknownBody pid) ∧
      (∀ r : ℝ, heliocentric_longitude pid jd ≠ .ok r) ∧
      (∀ r : ℝ, geocentric_longitude pid jd ≠ .ok r)) ∧
    (∀ jd, geocentric_longitude "earth" jd = .error .invalidOperation ∧
      (∀ r : ℝ, geocentric_longitude "earth" jd ≠ .ok r)) := by
  constructor
  · intro pid jd h
    have hne : pid ≠ "earth" := by
      intro hp
      rw [hp, orbital_elements_earth] at h
      exact Option.noConfusion h
    have h1 : heliocentric_longitude pid jd = .error (.unknownBody pid) := by
      unfold heliocentric_longitude
      rw [h]
    have h2 : geocentric_longitude pid jd = .error (.unknownBody pid) := by
      unfold geocentric_longitude
      rw [if_neg hne, h]
    refine ⟨h1, h2, ?_, ?_⟩
    · intro r hr; rw [h1] at hr; exact Except.noConfusion hr
    · intro r hr; rw [h2] at hr; exact Except.noConfusion hr
  · intro jd
    have h3 : geocentric_longitude "earth" jd = .error .invalidOperation := by
      unfold geocentric_longitude
      rw [if_pos rfl]
    exact ⟨h3, fun r hr => by rw [h3] at hr; exact Except.noConfusion hr⟩

/-- Witness for C7 at the concrete unknown identifier "vulcan". -/
theorem longitude_error_handling_witness :
    ORBITAL_ELEMENTS "vulcan" = none ∧
    heliocentric_longitude "vulcan" 0 = .error (.unknownBody "vulcan") ∧
    geocentric_longitude "vulcan" 0 = .error (.unknownBody "vulcan") ∧
    geocentric_longitude "earth" 0 = .error .invalidOperation := by
  have h : ORBITAL_ELEMENTS "vulcan" = none := by rfl
  have h2 := longitude_error_handling.1 "vulcan" 0 h
  exact ⟨h, h2.1, h2.2.1, (longitude_error_handling.2 0).1⟩

-- ---------------------------------------------------------------------------
-- C9 / C10: record_feedback behaviour
-- ---------------------------------------------------------------------------

/-- Concrete birth data used in the closed examples below. -/
def bd0 : BirthData :=
  { year := 2000, month := 1, day := none, hour := none, minute := none
    latitude := none, longitude := none, timezone := none }

/-- Concrete feedback entry used in the closed examples below. -/
def fb0 : FeedbackEntry := { element := "sun", userText := "noted", timestamp := 0 }

/-- Counterexample for C9: recording feedback twice for "sun" on a fresh
reading yields a revealedPlanets list with a duplicate identifier. -/
theorem revealed_planets_duplicate_counterexample :
    (record_feedback (record_feedback (start_reading [] bd0) "sun" fb0) "sun" fb0).revealedPlanets
        = ["sun", "sun"] ∧
    ¬ (record_feedback (record_feedback (start_reading [] bd0) "sun" fb0) "sun"
        fb0).revealedPlanets.Nodup := by
  refine ⟨rfl, ?_⟩
  rw [show (record_feedback (record_feedback (start_reading [] bd0) "sun" fb0) "sun"
      fb0).revealedPlanets = ["sun", "sun"] from rfl]
  decide

/-- C9 (amended): `record_feedback` is append-only on revealedPlanets, and
the list stays duplicate-free exactly when the recorded identifiers are
pairwise distinct; `record_feedback` itself never rejects a duplicate. -/
theorem revealed_planets_append_only (defns : List AspectDef) :
    (∀ (s : AstrologyReadingState) (pid : String) (fb : FeedbackEntry),
      (record_feedback s pid fb).revealedPlanets = s.revealedPlanets ++ [pid]) ∧
    (∀ (bd : BirthData) (ids : List String) (fb : FeedbackEntry),
      (record_seq (start_reading defns bd) ids fb).revealedPlanets = ids ∧
      (ids.Nodup →
        (record_seq (start_reading defns bd) ids fb).revealedPlanets.Nodup)) := by
  refine ⟨fun s pid fb => rfl, fun bd ids fb => ?_⟩
  have h : (record_seq (start_reading defns bd) ids fb).revealedPlanets = ids := by
    rw [record_seq_revealedPlanets]
    simp [start_reading]
  exact ⟨h, fun hn => by rw [h]; exact hn⟩

/-- Witness for C9's amended statement with two distinct identifiers. -/
theorem revealed_planets_append_only_witness :
    (["sun", "moon"] : List String).Nodup ∧
    (record_seq (start_reading [] bd0) ["sun", "moon"] fb0).revealedPlanets.Nodup := by
  have hn : (["sun", "moon"] : List String).Nodup := by decide
  exact ⟨hn, ((revealed_planets_append_only []).2 bd0 ["sun", "moon"] fb0).2 hn⟩

/-- C10: `record_feedback` validates nothing and never fails: it appends an
arbitrary identifier, and after eleven feedback calls all naming "sun" the
reading is reported complete while `get_next_reveal` still returns an item
(namely "moon"). -/
theorem record_feedback_no_validation (defns : List AspectDef) (bd : BirthData)
    (fb : FeedbackEntry) :
    (∀ (s : AstrologyReadingState) (pid : String) (f : FeedbackEntry),
      (record_feedback s pid f).revealedPlanets = s.revealedPlanets ++ [pid]) ∧
    is_complete (record_seq (start_reading defns bd) (List.replicate 11 "sun") fb) = true ∧
    (get_next_reveal (record_seq (start_reading defns bd) (List.replicate 11 "sun") fb)).map
        Prod.fst = some "moon" := by
  have hrev : (record_seq (start_reading defns bd) (List.replicate 11 "sun")
      fb).revealedPlanets = List.replicate 11 "sun" := by
    rw [record_seq_revealedPlanets]
    simp [start_reading]
  refine ⟨fun s pid f => rfl, ?_, ?_⟩
  · unfold is_complete
    rw [hrev]
    decide
  · unfold get_next_reveal
    rw [hrev]
    have hfind : DEFAULT_REVEAL_ORDER.find?
        (fun pid => !((List.replicate 11 "sun").contains pid)) = some "moon" := by decide
    rw [hfind]
    rfl

-- ---------------------------------------------------------------------------
-- C8: the canonical reveal cycle
-- ---------------------------------------------------------------------------

lemma reveal_order_find_lt : ∀ k, k < 11 →
    DEFAULT_REVEAL_ORDER.find?
        (fun pid => !((DEFAULT_REVEAL_ORDER.take k).contains pid))
      = some (DEFAULT_REVEAL_ORDER.getD k "") := by decide

lemma reveal_order_find_full :
    DEFAULT_REVEAL_ORDER.find?
        (fun pid => !((DEFAULT_REVEAL_ORDER.take 11).contains pid)) = none := by decide

lemma reveal_order_take_succ : ∀ k, k < 11 →
    DEFAULT_REVEAL_ORDER.take (k + 1)
      = DEFAULT_REVEAL_ORDER.take k ++ [DEFAULT_REVEAL_ORDER.getD k ""] := by decide

lemma reveal_cycle_succ (defns : List AspectDef) (bd : BirthData)
    (fb : ℕ → FeedbackEntry) (n : ℕ) :
    reveal_cycle defns bd fb (n + 1)
      = match get_next_reveal (reveal_cycle defns bd fb n) with
        | some r => record_feedback (reveal_cycle defns bd fb n) r.1 (fb n)
        | none => reveal_cycle defns bd fb n := rfl

lemma reveal_cycle_revealed (defns : List AspectDef) (bd : BirthData)
    (fb : ℕ → FeedbackEntry) :
    ∀ k, (reveal_cycle defns bd fb k).revealedPlanets
      = DEFAULT_REVEAL_ORDER.take (min k 11) := by
  intro k
  induction k with
  | zero => simp [reveal_cycle, start_reading]
  | succ n ih =>
    by_cases hn : n < 11
    · have hmin : min n 11 = n := by omega
      have hfind : get_next_reveal (reveal_cycle defns bd fb n)
          = some (DEFAULT_REVEAL_ORDER.getD n "",
              get_chart_position (DEFAULT_REVEAL_ORDER.getD n "")
                (reveal_cycle defns bd fb n).chart) := by
        unfold get_next_reveal
        rw [ih, hmin, reveal_order_find_lt n hn]
      simp only [reveal_cycle]
      rw [hfind, record_feedback_revealedPlanets, ih, hmin]
      have hmin2 : min (n + 1) 11 = n + 1 := by omega
      rw [hmin2, reveal_order_take_succ n hn]
    · have hmin : min n 11 = 11 := by omega
      have hfind : get_next_reveal (reveal_cycle defns bd fb n) = none := by
        unfold get_next_reveal
        rw [ih, hmin, reveal_order_find_full]
      simp only [reveal_cycle]
      rw [hfind, ih]
      congr 1
      omega

/-- C8: starting from `start_reading` and repeatedly feeding the planet
returned by `get_next_reveal` back through `record_feedback`, the reveal
returned at step `k < 11` is the k-th item of the fixed order,
`is_complete` is false before step 11 and true at step 11, the reveal at
step 11 is `none`, and the cycle is stationary from step 11 on. -/
theorem reveal_cycle_eleven_steps (defns : List AspectDef) (bd : BirthData)
    (fb : ℕ → FeedbackEntry) :
    (∀ k, k < 11 →
      (get_next_reveal (reveal_cycle defns bd fb k)).map Prod.fst
          = some (DEFAULT_REVEAL_ORDER.getD k "") ∧
      is_complete (reveal_cycle defns bd fb k) = false) ∧
    get_next_reveal (reveal_cycle defns bd fb 11) = none ∧
    is_complete (reveal_cycle defns bd fb 11) = true ∧
    (∀ j, reveal_cycle defns bd fb (11 + j) = reveal_cycle defns bd fb 11) := by
  have hnone : get_next_reveal (reveal_cycle defns bd fb 11) = none := by
    unfold get_next_reveal
    rw [reveal_cycle_revealed]
    have hmin : min 11 11 = 11 := by omega
    rw [hmin, reveal_order_find_full]
  refine ⟨?_, hnone, ?_, ?_⟩
  · intro k hk
    have hmin : min k 11 = k := by omega
    constructor
    · unfold get_next_reveal
      rw [reveal_cycle_revealed, hmin, reveal_order_find_lt k hk]
      rfl
    · unfold is_complete
      rw [reveal_cycle_revealed, hmin]
      have hlen : (DEFAULT_REVEAL_ORDER.take k).length = k := by
        rw [List.length_take]
        have : DEFAULT_REVEAL_ORDER.length = 11 := by rfl
        omega
      rw [hlen]
      simp only [decide_eq_false_iff_not, not_le]
      show k < DEFAULT_REVEAL_ORDER.length
      rw [show DEFAULT_REVEAL_ORDER.length = 11 from rfl]
      exact hk
  · unfold is_complete
    rw [reveal_cycle_revealed]
    decide
  · intro j
    induction j with
    | zero => rfl
    | succ m ihm =>
      show reveal_cycle defns bd fb (11 + m + 1) = _
      rw [reveal_cycle_succ, ihm, hnone]

/-- Witness for C8 at a concrete birth record and feedback stream. -/
theorem reveal_cycle_eleven_steps_witness :
    (3 < 11) ∧
    (get_next_reveal (reveal_cycle [] bd0 (fun _ => fb0) 3)).map Prod.fst
        = some "mercury" ∧
    is_complete (reveal_cycle [] bd0 (fun _ => fb0) 11) = true := by
  have h := ((reveal_cycle_eleven_steps [] bd0 (fun _ => fb0)).1 3 (by norm_num)).1
  have h2 : DEFAULT_REVEAL_ORDER.getD 3 "" = "mercury" := by rfl
  rw [h2] at h
  exact ⟨by norm_num, h, (reveal_cycle_eleven_steps [] bd0 (fun _ => fb0)).2.2.1⟩

-- ---------------------------------------------------------------------------
-- C1 / C6: rounding at sign boundaries breaks the stored-field invariant
-- ---------------------------------------------------------------------------

lemma round2_eval {x : ℝ} {n : ℤ} (h1 : (n : ℝ) ≤ x * 100 + 1 / 2)
    (h2 : x * 100 + 1 / 2 < n + 1) : round2 x = n / 100 := by
  unfold round2
  rw [round_eq, Int.floor_eq_iff.mpr ⟨h1, h2⟩]

lemma degrees_to_sign_29996 :
    degrees_to_sign (29.996 : ℝ) = ⟨"aries", 29.996, 29.996⟩ := by
  have hn : norm_deg (29.996 : ℝ) = 29.996 :=
    norm_deg_eq_self (by norm_num) (by norm_num)
  have hfl : ⌊(29.996 : ℝ) / 30⌋ = 0 := by
    rw [Int.floor_eq_zero_iff]
    constructor
    · positivity
    · rw [div_lt_one (by norm_num : (0:ℝ) < 30)]; norm_num
  simp only [degrees_to_sign, hn, hfl]
  norm_num
  rfl

/-- C1: evaluation of the position builder at the ecliptic longitude
29.996, four thousandths of a degree below the aries/taurus cusp: the
stored sign is "aries" from the un-rounded longitude, while the stored
(2-decimal-rounded) fields have degrees = 30 (outside `[0,30)`) and
totalDegrees = 30, whose sign index picks "taurus" — the claimed invariant
fails on the stored fields. -/
theorem build_position_rounding_breaks_invariant :
    (build_position "sun" 29.996 (equal_house_cusps 0) false).sign = "aries" ∧
    (build_position "sun" 29.996 (equal_house_cusps 0) false).degrees = 30 ∧
    (build_position "sun" 29.996 (equal_house_cusps 0) false).totalDegrees = 30 ∧
    ¬ ((build_position "sun" 29.996 (equal_house_cusps 0) false).degrees < 30) ∧
    SIGN_ORDER.getD
        (⌊(build_position "sun" 29.996 (equal_house_cusps 0) false).totalDegrees / 30⌋).toNat ""
      ≠ (build_position "sun" 29.996 (equal_house_cusps 0) false).sign := by
  have hs : (build_position "sun" 29.996 (equal_house_cusps 0) false).sign = "aries" := by
    simp only [build_position, degrees_to_sign_29996]
  have hr : round2 (29.996 : ℝ) = 30 := by
    have h := round2_eval (x := 29.996) (n := 3000) (by norm_num) (by norm_num)
    rw [h]; norm_num
  have hd : (build_position "sun" 29.996 (equal_house_cusps 0) false).degrees = 30 := by
    simp only [build_position, degrees_to_sign_29996]
    exact hr
  have ht : (build_position "sun" 29.996 (equal_house_cusps 0) false).totalDegrees = 30 := by
    simp only [build_position, degrees_to_sign_29996]
    exact hr
  refine ⟨hs, hd, ht, by rw [hd]; norm_num, ?_⟩
  rw [ht, hs]
  rw [show (30:ℝ)/30 = 1 by norm_num, Int.floor_one]
  decide

/-- C6: the null-field defaults (day 1, hour 12, minute 0, latitude 0,
longitude 0, timezone 0) give exactly the chart of the explicitly filled
birth data; but the rounded-field invariant of the claim is broken by the
same rounding slip as in C1: at longitude 359.996 the stored totalDegrees
is 360, outside `[0, 360)`. -/
theorem null_defaults_chart_and_overflow (defns : List AspectDef) :
    (∀ (y m : ℤ),
      calculate_natal_chart defns
          { year := y, month := m, day := none, hour := none, minute := none
            latitude := none, longitude := none, timezone := none }
        = calculate_natal_chart defns
            { year := y, month := m, day := some 1, hour := some 12, minute := some 0
              latitude := some 0, longitude := some 0, timezone := some 0 }) ∧
    (build_position "sun" 359.996 (equal_house_cusps 0) false).totalDegrees = 360 ∧
    ¬ ((build_position "sun" 359.996 (equal_house_cusps 0) false).totalDegrees < 360) := by
  have hn : norm_deg (359.996 : ℝ) = 359.996 :=
    norm_deg_eq_self (by norm_num) (by norm_num)
  have ht : (build_position "sun" 359.996 (equal_house_cusps 0) false).totalDegrees = 360 := by
    have hround : round2 (359.996 : ℝ) = 360 := by
      have h := round2_eval (x := 359.996) (n := 36000) (by norm_num) (by norm_num)
      rw [h]; norm_num
    simp only [build_position, degrees_to_sign, hn]
    exact hround
  exact ⟨fun y m => rfl, ht, by rw [ht]; norm_num⟩

-- ---------------------------------------------------------------------------
-- C3: the geocentric pipeline versus the spec's step-4 longitude
-- ---------------------------------------------------------------------------

/-- The in-orbital-plane heliocentric longitude `norm(v + w - W)` of the
spec's step 4, which the claim asserts each body's 2-D projection uses. -/
def body_lon_claimed (el : OrbitalElements) (T : ℝ) : ℝ :=
  norm_deg (body_V el T + elems_w el T - elems_W el T)

/-- The spec's step-6 narrative (project both bodies with radius
`R = a(1 - e cos E)` to `x = R cos lon`, `y = R sin lon`, then take
`atan2(y_p - y_e, x_p - x_e)` normalised), with the per-body longitude the
code actually uses, `norm(v + w)`. -/
def geocentric_longitude_spec_planar (planet_id : String) (jd : ℝ) : Except AstroError ℝ :=
  if planet_id = "earth" then .error .invalidOperation
  else
    match ORBITAL_ELEMENTS planet_id with
    | none => .error (.unknownBody planet_id)
    | some p_el =>
      let T := julian_centuries jd
      let x_e := body_R earthElements T * Real.cos (body_proj_lon earthElements T * DEG2RAD)
      let y_e := body_R earthElements T * Real.sin (body_proj_lon earthElements T * DEG2RAD)
      let x_p := body_R p_el T * Real.cos (body_proj_lon p_el T * DEG2RAD)
      let y_p := body_R p_el T * Real.sin (body_proj_lon p_el T * DEG2RAD)
      .ok (norm_deg (atan2 (y_p - y_e) (x_p - x_e) * RAD2DEG))

/-- C3 (amended): `geocentric_longitude` is exactly the spec's planar
projection formula, with each body's projection longitude `norm(v + w)` —
the node term of step 4 is not subtracted in the geocentric path (it would
be added back by the zero-inclination ecliptic projection of step 5). -/
theorem geocentric_longitude_planar_form :
    ∀ (pid : String) (jd : ℝ),
      geocentric_longitude pid jd = geocentric_longitude_spec_planar pid jd :=
  fun _ _ => rfl

/-- The Julian-century argument at which mercury's mean anomaly vanishes
exactly, making the true anomaly computable in closed form. -/
def Tstar : ℝ := (77.45779628 - 252.25032350) / (149472.67411175 - 0.16047689)

lemma kepler_iter_zero (e : ℝ) (n : ℕ) : kepler_iter 0 e (n + 1) 0 = 0 := by
  simp only [kepler_iter, Real.sin_zero, Real.cos_zero, mul_zero, mul_one, sub_zero,
    zero_sub, zero_div, abs_zero, neg_zero]
  rw [if_pos (by norm_num : (0:ℝ) < 1e-12)]

lemma solve_kepler_zero (e : ℝ) : solve_kepler 0 e = 0 := by
  show kepler_iter 0 e (49 + 1) 0 = 0
  exact kepler_iter_zero e 49

lemma Tstar_bounds : (-0.0012 : ℝ) < Tstar ∧ Tstar < 0 := by
  constructor <;> (unfold Tstar; norm_num)

/-- Counterexample for C3: at mercury's orbital elements and the Julian
centuries value `Tstar`, the per-body longitude that
`geocentric_longitude` projects with, `norm(v + w)`, differs from the
claim's step-4 longitude `norm(v + w - W)`. -/
theorem geocentric_node_term_counterexample :
    ORBITAL_ELEMENTS "mercury" = some mercuryElements ∧
    body_proj_lon mercuryElements Tstar ≠ body_lon_claimed mercuryElements Tstar := by
  obtain ⟨hT1, hT2⟩ := Tstar_bounds
  have hmul_w : (0.16047689 : ℝ) * (-0.0012) < 0.16047689 * Tstar :=
    mul_lt_mul_of_pos_left hT1 (by norm_num)
  have hmul_w2 : (0.16047689 : ℝ) * Tstar ≤ 0 :=
    mul_nonpos_of_nonneg_of_nonpos (by norm_num) hT2.le
  have hmul_W : (-0.12534081 : ℝ) * Tstar < -0.12534081 * (-0.0012) := by
    have := mul_lt_mul_of_neg_left hT1 (by norm_num : (-0.12534081 : ℝ) < 0)
    linarith
  have hmul_W2 : (0 : ℝ) ≤ -0.12534081 * Tstar := by nlinarith [hT2.le]

  have hM : body_M mercuryElements Tstar = 0 := by
    have hLw : mercuryElements.L0 + mercuryElements.L1 * Tstar
        = mercuryElements.w0 + mercuryElements.w1 * Tstar := by
      simp only [mercuryElements]
      unfold Tstar
      field_simp
      ring
    unfold body_M elems_w
    rw [hLw, sub_self, norm_deg_zero, zero_mul]
  have hE : body_E mercuryElements Tstar = 0 := by
    unfold body_E
    rw [hM]
    exact solve_kepler_zero _
  have he_pos : 0 < 1 - elems_e mercuryElements Tstar := by
    unfold elems_e
    simp only [mercuryElements]
    have : (0.00001906 : ℝ) * Tstar ≤ 0 :=
      mul_nonpos_of_nonneg_of_nonpos (by norm_num) hT2.le
    linarith
  have hV : body_V mercuryElements Tstar = 0 := by
    unfold body_V
    rw [hE, Real.sin_zero, Real.cos_zero, mul_zero, atan2_zero_of_pos he_pos, zero_mul]
  have hw : elems_w mercuryElements Tstar = 77.45779628 + 0.16047689 * Tstar := by
    unfold elems_w
    simp only [mercuryElements]
    exact norm_deg_eq_self (by linarith) (by linarith)
  have hW : elems_W mercuryElements Tstar = 48.33076593 + -0.12534081 * Tstar := by
    unfold elems_W
    simp only [mercuryElements]
    exact norm_deg_eq_self (by linarith) (by linarith)
  have hcode : body_proj_lon mercuryElements Tstar = 77.45779628 + 0.16047689 * Tstar := by
    unfold body_proj_lon
    rw [hV, zero_add, hw]
    exact norm_deg_eq_self (by linarith) (by linarith)
  have hclaimed : body_lon_claimed mercuryElements Tstar
      = (77.45779628 + 0.16047689 * Tstar) - (48.33076593 + -0.12534081 * Tstar) := by
    unfold body_lon_claimed
    rw [hV, zero_add, hw, hW]
    exact norm_deg_eq_self (by linarith) (by linarith)
  refine ⟨rfl, ?_⟩
  rw [hcode, hclaimed]
  intro heq
  nlinarith [hmul_W2]

-- ---------------------------------------------------------------------------
-- C4: equal-house cusps partition the circle
-- ---------------------------------------------------------------------------

lemma equal_house_cusps_length (a : ℝ) : (equal_house_cusps a).length = 12 := by
  simp [equal_house_cusps]

lemma equal_house_cusps_getD {a : ℝ} {i : ℕ} (hi : i < 12) :
    (equal_house_cusps a).getD i 0 = norm_deg (a + (i : ℝ) * 30) := by
  unfold equal_house_cusps
  rw [List.getD_eq_getElem?_getD, List.getElem?_map, List.getElem?_range hi]
  rfl

lemma equal_house_cusps_getD_next {a : ℝ} {i : ℕ} (hi : i < 12) :
    (equal_house_cusps a).getD ((i + 1) % 12) 0 = norm_deg (a + ((i : ℝ) + 1) * 30) := by
  by_cases h : i + 1 < 12
  · rw [Nat.mod_eq_of_lt h, equal_house_cusps_getD h]
    push_cast
    ring_nf
  · have hi11 : i = 11 := by omega
    subst hi11
    show (equal_house_cusps a).getD 0 0 = _
    rw [equal_house_cusps_getD (by norm_num : (0:ℕ) < 12)]
    rw [show a + ((0:ℕ) : ℝ) * 30 = a by push_cast; ring]
    rw [show a + (((11:ℕ) : ℝ) + 1) * 30 = a + 360 by push_cast; ring]
    exact (norm_deg_add_360 a).symm

lemma house_cond_iff {a x : ℝ} (ha0 : 0 ≤ a) (ha : a < 360) (hx0 : 0 ≤ x) (hx : x < 360)
    {i : ℕ} (hi : i < 12) :
    house_cond x (norm_deg (a + (i : ℝ) * 30)) (norm_deg (a + ((i : ℝ) + 1) * 30)) ↔
      ((i : ℝ) * 30 ≤ norm_deg (x - a) ∧ norm_deg (x - a) < (i : ℝ) * 30 + 30) := by
  have hi11 : (i : ℝ) ≤ 11 := by exact_mod_cast Nat.le_of_lt_succ hi
  have hi0 : (0 : ℝ) ≤ (i : ℝ) := Nat.cast_nonneg i
  have hd : norm_deg (x - a) = if x < a then x - a + 360 else x - a := by
    split_ifs with hxa
    · exact norm_deg_neg_window (by linarith) (by linarith)
    · push_neg at hxa
      exact norm_deg_eq_self (by linarith) (by linarith)
  by_cases h2 : a + ((i : ℝ) + 1) * 30 < 360
  · have h1 : a + (i : ℝ) * 30 < 360 := by linarith
    rw [norm_deg_eq_self (by linarith) h1, norm_deg_eq_self (by linarith) h2]
    unfold house_cond
    rw [if_pos (by linarith : a + ((i : ℝ) + 1) * 30 > a + (i : ℝ) * 30)]
    by_cases hxa : x < a
    · rw [hd, if_pos hxa]
      constructor <;> (rintro ⟨hh1, hh2⟩; exfalso; linarith)
    · push_neg at hxa
      rw [hd, if_neg (not_lt.mpr hxa)]
      constructor <;> (rintro ⟨hh1, hh2⟩; exact ⟨by linarith, by linarith⟩)
  · push_neg at h2
    by_cases h1 : a + (i : ℝ) * 30 < 360
    · rw [norm_deg_eq_self (by linarith) h1,
        norm_deg_sub_360 (by linarith) (by linarith)]
      unfold house_cond
      rw [if_neg (by push_neg; linarith :
        ¬ a + ((i : ℝ) + 1) * 30 - 360 > a + (i : ℝ) * 30)]
      by_cases hxa : x < a
      · rw [hd, if_pos hxa]
        constructor
        · rintro (hh | hh)
          · exfalso; linarith
          · exact ⟨by linarith, by linarith⟩
        · rintro ⟨hh1, hh2⟩
          right
          linarith
      · push_neg at hxa
        rw [hd, if_neg (not_lt.mpr hxa)]
        constructor
        · rintro (hh | hh)
          · exact ⟨by linarith, by linarith⟩
          · exfalso; linarith
        · rintro ⟨hh1, hh2⟩
          left
          linarith
    · push_neg at h1
      rw [norm_deg_sub_360 (by linarith) (by linarith),
        norm_deg_sub_360 (by linarith) (by linarith)]
      unfold house_cond
      rw [if_pos (by linarith : a + ((i : ℝ) + 1) * 30 - 360 > a + (i : ℝ) * 30 - 360)]
      by_cases hxa : x < a
      · rw [hd, if_pos hxa]
        constructor <;> (rintro ⟨hh1, hh2⟩; exact ⟨by linarith, by linarith⟩)
      · push_neg at hxa
        rw [hd, if_neg (not_lt.mpr hxa)]
        constructor <;> (rintro ⟨hh1, hh2⟩; exfalso; linarith)

lemma house_match_exists_unique {a x : ℝ} (ha0 : 0 ≤ a) (ha : a < 360)
    (hx0 : 0 ≤ x) (hx : x < 360) :
    ∃! i : ℕ, i < 12 ∧ house_cond x ((equal_house_cusps a).getD i 0)
        ((equal_house_cusps a).getD ((i + 1) % 12) 0) := by
  set d := norm_deg (x - a) with hdef
  have hd0 : 0 ≤ d := norm_deg_nonneg _
  have hd360 : d < 360 := norm_deg_lt_360 _
  have hfl0 : 0 ≤ ⌊d / 30⌋ := Int.floor_nonneg.mpr (by positivity)
  set k : ℕ := (⌊d / 30⌋).toNat with hk
  have hkf : (k : ℤ) = ⌊d / 30⌋ := Int.toNat_of_nonneg hfl0
  have hklo : (k : ℝ) * 30 ≤ d := by
    have h := Int.floor_le (d / 30)
    have h2 : ((k : ℤ) : ℝ) ≤ d / 30 := by rw [hkf]; exact h
    push_cast at h2
    linarith
  have hkhi : d < (k : ℝ) * 30 + 30 := by
    have h := Int.lt_floor_add_one (d / 30)
    have h2 : d / 30 < ((k : ℤ) : ℝ) + 1 := by rw [hkf]; exact_mod_cast h
    push_cast at h2
    linarith
  have hk12 : k < 12 := by
    by_contra hcon
    push_neg at hcon
    have h12 : (12 : ℝ) ≤ (k : ℝ) := by exact_mod_cast hcon
    linarith
  refine ⟨k, ⟨hk12, ?_⟩, ?_⟩
  · rw [equal_house_cusps_getD hk12, equal_house_cusps_getD_next hk12,
      house_cond_iff ha0 ha hx0 hx hk12]
    exact ⟨hklo, hkhi⟩
  · rintro j ⟨hj12, hj⟩
    rw [equal_house_cusps_getD hj12, equal_house_cusps_getD_next hj12,
      house_cond_iff ha0 ha hx0 hx hj12] at hj
    obtain ⟨hj1, hj2⟩ := hj
    have hjf : ⌊d / 30⌋ = (j : ℤ) := by
      rw [Int.floor_eq_iff]
      constructor
      · push_cast
        rw [le_div_iff₀ (by norm_num : (0:ℝ) < 30)]
        linarith
      · push_cast
        rw [div_lt_iff₀ (by norm_num : (0:ℝ) < 30)]
        linarith
    omega

lemma find_eq_of_unique {p : ℕ → Bool} {k : ℕ} :
    ∀ {l : List ℕ}, k ∈ l → (∀ j ∈ l, p j = true ↔ j = k) → l.find? p = some k := by
  intro l
  induction l with
  | nil => intro h _; exact absurd h (List.not_mem_nil k)
  | cons b t ih =>
    intro hmem hiff
    by_cases hb : b = k
    · subst hb
      exact List.find?_cons_of_pos _ ((hiff b (List.mem_cons_self b t)).mpr rfl)
    · have hpb : ¬ p b = true := fun h => hb ((hiff b (List.mem_cons_self b t)).mp h)
      rw [List.find?_cons_of_neg _ (by simpa using hpb)]
      apply ih
      · rcases List.mem_cons.mp hmem with h | h
        · exact absurd h.symm hb
        · exact h
      · intro j hj
        exact hiff j (List.mem_cons_of_mem b hj)

lemma house_for_longitude_find {a x : ℝ} (ha0 : 0 ≤ a) (ha : a < 360)
    (hx0 : 0 ≤ x) (hx : x < 360) :
    ∃ i : ℕ, i < 12 ∧
      (List.range 12).find?
          (fun i => decide (house_cond x ((equal_house_cusps a).getD i 0)
            ((equal_house_cusps a).getD ((i + 1) % 12) 0))) = some i ∧
      house_for_longitude x (equal_house_cusps a) = i + 1 := by
  obtain ⟨k, ⟨hk12, hk⟩, huniq⟩ := house_match_exists_unique ha0 ha hx0 hx
  have hfind : (List.range 12).find?
      (fun i => decide (house_cond x ((equal_house_cusps a).getD i 0)
        ((equal_house_cusps a).getD ((i + 1) % 12) 0))) = some k := by
    apply find_eq_of_unique (List.mem_range.mpr hk12)
    intro j hj
    rw [decide_eq_true_eq]
    constructor
    · intro hcond
      exact huniq j ⟨List.mem_range.mp hj, hcond⟩
    · rintro rfl
      exact hk
  refine ⟨k, hk12, hfind, ?_⟩
  unfold house_for_longitude
  rw [hfind]

lemma house_for_longitude_bounds (x : ℝ) (cusps : List ℝ) :
    1 ≤ house_for_longitude x cusps ∧ house_for_longitude x cusps ≤ 12 := by
  unfold house_for_longitude
  cases hf : (List.range 12).find?
      (fun i => decide (house_cond x (cusps.getD i 0) (cusps.getD ((i + 1) % 12) 0))) with
  | none => exact ⟨le_refl 1, by norm_num⟩
  | some i =>
    have hmem := List.mem_range.mp (List.mem_of_find?_eq_some hf)
    show 1 ≤ i + 1 ∧ i + 1 ≤ 12
    omega

lemma compute_ascendant_norm (lst lat obl : ℝ) :
    norm_deg (compute_ascendant lst lat obl) = compute_ascendant lst lat obl := by
  unfold compute_ascendant
  exact norm_deg_idem _

lemma calculate_natal_chart_shape (defns : List AspectDef) (bd : BirthData) :
    ∃ A : ℝ,
      (calculate_natal_chart defns bd).houseCusps = equal_house_cusps A ∧
      (calculate_natal_chart defns bd).ascendant.totalDegrees = A ∧
      0 ≤ A ∧ A < 360 := by
  refine ⟨_, rfl, ?_, ?_, ?_⟩
  · exact compute_ascendant_norm _ _ _
  · exact norm_deg_nonneg _
  · exact norm_deg_lt_360 _

/-- C4: the twelve equal-house cusps are `norm(asc + 30 i)`; for every
longitude in `[0, 360)` exactly one consecutive cusp pair matches, so the
scan of `_house_for_longitude` finds a pair (its no-match fallback is
unreachable for normalised inputs) and the returned house is in `[1, 12]`
for every input; every chart has twelve cusps of that shape and all ten
planet houses in `[1, 12]`. -/
theorem house_system_partition (defns : List AspectDef) (a x : ℝ)
    (ha0 : 0 ≤ a) (ha : a < 360) (hx0 : 0 ≤ x) (hx : x < 360) :
    (equal_house_cusps a).length = 12 ∧
    (∀ i, i < 12 → (equal_house_cusps a).getD i 0 = norm_deg (a + (i : ℝ) * 30)) ∧
    (∃! i : ℕ, i < 12 ∧ house_cond x ((equal_house_cusps a).getD i 0)
        ((equal_house_cusps a).getD ((i + 1) % 12) 0)) ∧
    (List.range 12).find?
        (fun i => decide (house_cond x ((equal_house_cusps a).getD i 0)
          ((equal_house_cusps a).getD ((i + 1) % 12) 0))) ≠ none ∧
    (∀ (lon : ℝ) (cusps : List ℝ),
      1 ≤ house_for_longitude lon cusps ∧ house_for_longitude lon cusps ≤ 12) ∧
    (∀ bd : BirthData,
      (calculate_natal_chart defns bd).houseCusps.length = 12 ∧
      (∀ i, i < 12 → (calculate_natal_chart defns bd).houseCusps.getD i 0
        = norm_deg ((calculate_natal_chart defns bd).ascendant.totalDegrees + (i : ℝ) * 30)) ∧
      (∀ p ∈ [(calculate_natal_chart defns bd).sun, (calculate_natal_chart defns bd).moon,
          (calculate_natal_chart defns bd).mercury, (calculate_natal_chart defns bd).venus,
          (calculate_natal_chart defns bd).mars, (calculate_natal_chart defns bd).jupiter,
          (calculate_natal_chart defns bd).saturn, (calculate_natal_chart defns bd).uranus,
          (calculate_natal_chart defns bd).neptune, (calculate_natal_chart defns bd).pluto],
        1 ≤ p.house ∧ p.house ≤ 12)) := by
  obtain ⟨k, hk12, hfind, hres⟩ := house_for_longitude_find ha0 ha hx0 hx
  refine ⟨equal_house_cusps_length a, fun i hi => equal_house_cusps_getD hi,
    house_match_exists_unique ha0 ha hx0 hx,
    by rw [hfind]; exact fun h => Option.noConfusion h,
    house_for_longitude_bounds, fun bd => ?_⟩
  obtain ⟨A, hcusps, hasc, hA0, hA360⟩ := calculate_natal_chart_shape defns bd
  refine ⟨?_, ?_, ?_⟩
  · rw [hcusps]
    exact equal_house_cusps_length A
  · intro i hi
    rw [hcusps, hasc]
    exact equal_house_cusps_getD hi
  · intro p hp
    simp only [List.mem_cons, List.not_mem_nil, or_false] at hp
    rcases hp with h|h|h|h|h|h|h|h|h|h <;> (subst h; exact house_for_longitude_bounds _ _)

/-- Witness for C4 at ascendant 10 degrees and longitude 100 degrees. -/
theorem house_system_partition_witness :
    ((0:ℝ) ≤ 10 ∧ (10:ℝ) < 360 ∧ (0:ℝ) ≤ 100 ∧ (100:ℝ) < 360) ∧
    (equal_house_cusps 10).length = 12 ∧
    1 ≤ house_for_longitude 100 (equal_house_cusps 10) ∧
    house_for_longitude 100 (equal_house_cusps 10) ≤ 12 := by
  have h := house_system_partition [] 10 100 (by norm_num) (by norm_num) (by norm_num)
    (by norm_num)
  exact ⟨⟨by norm_num, by norm_num, by norm_num, by norm_num⟩, h.1,
    (h.2.2.2.2.1 100 (equal_house_cusps 10)).1, (h.2.2.2.2.1 100 (equal_house_cusps 10)).2⟩

-- ---------------------------------------------------------------------------
-- C5: aspect calculation
-- ---------------------------------------------------------------------------

lemma filter_orderedInsert (v : ℝ) (a : ChartAspect) (l : List ChartAspect) :
    (List.orderedInsert (fun p q => p.orb ≤ q.orb) a l).filter (fun y => decide (y.orb = v))
      = if a.orb = v then a :: l.filter (fun y => decide (y.orb = v))
        else l.filter (fun y => decide (y.orb = v)) := by
  induction l with
  | nil =>
    rw [List.orderedInsert]
    by_cases h : a.orb = v
    · simp [List.filter, h]
    · simp [List.filter, h]
  | cons b t ih =>
    rw [List.orderedInsert]
    by_cases hab : a.orb ≤ b.orb
    · rw [if_pos hab]
      by_cases ha : a.orb = v <;> by_cases hb : b.orb = v <;>
        simp [List.filter_cons, ha, hb]
    · rw [if_neg hab]
      push_neg at hab
      by_cases ha : a.orb = v
      · have hb : ¬ b.orb = v := by
          intro hbv
          rw [hbv, ← ha] at hab
          exact lt_irrefl _ hab
        simp [List.filter_cons, ha, hb, ih]
      · simp [List.filter_cons, ha, ih]

lemma filter_insertionSort (v : ℝ) (l : List ChartAspect) :
    (List.insertionSort (fun p q => p.orb ≤ q.orb) l).filter (fun y => decide (y.orb = v))
      = l.filter (fun y => decide (y.orb = v)) := by
  induction l with
  | nil => rfl
  | cons a t ih =>
    rw [List.insertionSort, filter_orderedInsert]
    by_cases ha : a.orb = v <;> simp [List.filter_cons, ha, ih]

lemma mem_emit_aspects {a : ChartAspect} {p q : PlanetPosition} {defns : List AspectDef}
    (h : a ∈ emit_aspects p q defns) :
    a.planet1 = p.planet ∧ a.planet2 = q.planet ∧
    ∃ d ∈ defns, a.aspectName = d.name ∧
      a.orb = round2 |pair_separation p q - d.degrees| ∧
      |pair_separation p q - d.degrees| ≤ d.orb := by
  unfold emit_aspects at h
  rw [List.mem_filterMap] at h
  obtain ⟨d, hd, hsome⟩ := h
  by_cases hc : |pair_separation p q - d.degrees| ≤ d.orb
  · rw [if_pos hc] at hsome
    have heq := Option.some.inj hsome
    subst heq
    exact ⟨rfl, rfl, d, hd, rfl, rfl, hc⟩
  · rw [if_neg hc] at hsome
    exact Option.noConfusion hsome

lemma countP_emit_zero_of_planets {x y p q : PlanetPosition} {defns : List AspectDef}
    {d : AspectDef} (h : ¬ (x.planet = p.planet ∧ y.planet = q.planet)) :
    (emit_aspects x y defns).countP
      (fun a => decide (a.planet1 = p.planet ∧ a.planet2 = q.planet
        ∧ a.aspectName = d.name)) = 0 := by
  rw [List.countP_eq_zero]
  intro a ha
  obtain ⟨h1, h2, _⟩ := mem_emit_aspects ha
  simp only [decide_eq_true_eq]
  rintro ⟨hp1, hp2, _⟩
  exact h ⟨h1.symm.trans hp1, h2.symm.trans hp2⟩

lemma countP_emit_name_zero {p q : PlanetPosition} {defns : List AspectDef} {d : AspectDef}
    (h : d.name ∉ defns.map (fun e => e.name)) :
    (emit_aspects p q defns).countP
      (fun a => decide (a.planet1 = p.planet ∧ a.planet2 = q.planet
        ∧ a.aspectName = d.name)) = 0 := by
  rw [List.countP_eq_zero]
  intro a ha
  obtain ⟨_, _, e, he, hname, _, _⟩ := mem_emit_aspects ha
  simp only [decide_eq_true_eq]
  rintro ⟨_, _, hn⟩
  exact h (List.mem_map.mpr ⟨e, he, hname.symm.trans hn⟩)

lemma emit_aspects_cons (p q : PlanetPosition) (e : AspectDef) (rest : List AspectDef) :
    emit_aspects p q (e :: rest)
      = (if |pair_separation p q - e.degrees| ≤ e.orb then [mk_aspect p q e] else [])
        ++ emit_aspects p q rest := by
  unfold emit_aspects
  rw [List.filterMap_cons]
  split_ifs with hc <;> simp

lemma countP_emit_eq (p q : PlanetPosition) {defns : List AspectDef} {d : AspectDef}
    (hd : d ∈ defns) (hnd : (defns.map (fun e => e.name)).Nodup) :
    (emit_aspects p q defns).countP
        (fun a => decide (a.planet1 = p.planet ∧ a.planet2 = q.planet
          ∧ a.aspectName = d.name))
      = if |pair_separation p q - d.degrees| ≤ d.orb then 1 else 0 := by
  induction defns with
  | nil => exact absurd hd (List.not_mem_nil d)
  | cons e rest ih =>
    rw [emit_aspects_cons, List.countP_append]
    have hhd : e.name ∉ rest.map (fun r => r.name) :=
      (List.nodup_cons.mp (by simpa using hnd)).1
    have htl : (rest.map (fun r => r.name)).Nodup :=
      (List.nodup_cons.mp (by simpa using hnd)).2
    rcases List.mem_cons.mp hd with rfl | hdrest
    · have hrest0 : (emit_aspects p q rest).countP
          (fun a => decide (a.planet1 = p.planet ∧ a.planet2 = q.planet
            ∧ a.aspectName = d.name)) = 0 :=
        countP_emit_name_zero hhd
      rw [hrest0]
      split_ifs with hc
      · simp [List.countP_cons, mk_aspect]
      · simp
    · have hen : e.name ≠ d.name := by
        intro hh
        exact hhd (hh ▸ List.mem_map.mpr ⟨d, hdrest, rfl⟩)
      have hhead : ((if |pair_separation p q - e.degrees| ≤ e.orb
          then [mk_aspect p q e] else []) : List ChartAspect).countP
          (fun a => decide (a.planet1 = p.planet ∧ a.planet2 = q.planet
            ∧ a.aspectName = d.name)) = 0 := by
        split_ifs with hc
        · simp [List.countP_cons, mk_aspect, hen]
        · simp
      rw [hhead, Nat.zero_add]
      exact ih hdrest htl

lemma all_pairs_mem {pr : PlanetPosition × PlanetPosition} :
    ∀ {l : List PlanetPosition}, pr ∈ all_pairs l → pr.1 ∈ l ∧ pr.2 ∈ l := by
  intro l
  induction l with
  | nil => intro h; exact absurd h (List.not_mem_nil pr)
  | cons z rest ih =>
    intro h
    unfold all_pairs at h
    rcases List.mem_append.mp h with h | h
    · obtain ⟨y, hy, heq⟩ := List.mem_map.mp h
      rw [← heq]
      exact ⟨List.mem_cons_self z rest, List.mem_cons_of_mem z hy⟩
    · have h2 := ih h
      exact ⟨List.mem_cons_of_mem z h2.1, List.mem_cons_of_mem z h2.2⟩

lemma row_flatMap_eq (z : PlanetPosition) (rest : List PlanetPosition)
    (defns : List AspectDef) :
    (rest.map (fun y => (z, y))).flatMap (fun pq => emit_aspects pq.1 pq.2 defns)
      = rest.flatMap (fun y => emit_aspects z y defns) := by
  induction rest with
  | nil => rfl
  | cons y t ih => simp [List.flatMap_cons, ih]

lemma countP_row {z q : PlanetPosition} {defns : List AspectDef} {d : AspectDef}
    (hd : d ∈ defns) (hnd : (defns.map (fun e => e.name)).Nodup) :
    ∀ {rest : List PlanetPosition}, q ∈ rest →
      (rest.map (fun r => r.planet)).Nodup →
      (rest.flatMap (fun y => emit_aspects z y defns)).countP
          (fun a => decide (a.planet1 = z.planet ∧ a.planet2 = q.planet
            ∧ a.aspectName = d.name))
        = if |pair_separation z q - d.degrees| ≤ d.orb then 1 else 0 := by
  intro rest
  induction rest with
  | nil => intro h _; exact absurd h (List.not_mem_nil q)
  | cons y t ih =>
    intro hq hn
    rw [List.flatMap_cons, List.countP_append]
    have hyn : y.planet ∉ t.map (fun r => r.planet) :=
      (List.nodup_cons.mp (by simpa using hn)).1
    have htn : (t.map (fun r => r.planet)).Nodup :=
      (List.nodup_cons.mp (by simpa using hn)).2
    rcases List.mem_cons.mp hq with rfl | hqt
    · have htail : (t.flatMap (fun y2 => emit_aspects z y2 defns)).countP
          (fun a => decide (a.planet1 = z.planet ∧ a.planet2 = q.planet
            ∧ a.aspectName = d.name)) = 0 := by
        rw [List.countP_eq_zero]
        intro a ha
        rw [List.mem_flatMap] at ha
        obtain ⟨y2, hy2, hmem2⟩ := ha
        obtain ⟨_, h2, _⟩ := mem_emit_aspects hmem2
        simp only [decide_eq_true_eq]
        rintro ⟨_, hp2, _⟩
        exact hyn (List.mem_map.mpr ⟨y2, hy2, h2.symm.trans hp2⟩)
      rw [htail, Nat.add_zero]
      exact countP_emit_eq z q hd hnd
    · have hyq : y.planet ≠ q.planet := fun hh =>
        hyn (List.mem_map.mpr ⟨q, hqt, hh.symm⟩)
      have hhead : (emit_aspects z y defns).countP
          (fun a => decide (a.planet1 = z.planet ∧ a.planet2 = q.planet
            ∧ a.aspectName = d.name)) = 0 :=
        countP_emit_zero_of_planets (fun hc => hyq hc.2)
      rw [hhead, Nat.zero_add]
      exact ih hqt htn

lemma countP_candidates {p q : PlanetPosition} {d : AspectDef} {defns : List AspectDef}
    (hd : d ∈ defns) (hnd : (defns.map (fun e => e.name)).Nodup) :
    ∀ {positions : List PlanetPosition},
      (positions.map (fun r => r.planet)).Nodup →
      (p, q) ∈ all_pairs positions →
      (aspect_candidates positions defns).countP
          (fun a => decide (a.planet1 = p.planet ∧ a.planet2 = q.planet
            ∧ a.aspectName = d.name))
        = if |pair_separation p q - d.degrees| ≤ d.orb then 1 else 0 := by
  intro positions
  induction positions with
  | nil => intro _ h; exact absurd h (List.not_mem_nil _)
  | cons z rest ih =>
    intro hp hpq
    have hcand : aspect_candidates (z :: rest) defns
        = (rest.map (fun y => (z, y))).flatMap (fun pq => emit_aspects pq.1 pq.2 defns)
          ++ aspect_candidates rest defns := by
      unfold aspect_candidates
      rw [show all_pairs (z :: rest) = rest.map (fun y => (z, y)) ++ all_pairs rest from rfl,
        List.flatMap_append]
    rw [hcand, List.countP_append]
    have hzn : z.planet ∉ rest.map (fun r => r.planet) :=
      (List.nodup_cons.mp (by simpa using hp)).1
    have hrestn : (rest.map (fun r => r.planet)).Nodup :=
      (List.nodup_cons.mp (by simpa using hp)).2
    unfold all_pairs at hpq
    rcases List.mem_append.mp hpq with hmem | hmem
    · obtain ⟨y, hy, heq⟩ := List.mem_map.mp hmem
      injection heq with hz hyq
      rw [hz] at hzn ⊢
      rw [hyq] at hy
      have hpart2 : (aspect_candidates rest defns).countP
          (fun a => decide (a.planet1 = p.planet ∧ a.planet2 = q.planet
            ∧ a.aspectName = d.name)) = 0 := by
        rw [List.countP_eq_zero]
        intro a ha
        unfold aspect_candidates at ha
        rw [List.mem_flatMap] at ha
        obtain ⟨pq2, hpq2, hmem2⟩ := ha
        obtain ⟨h1, _, _⟩ := mem_emit_aspects hmem2
        have hf : pq2.1 ∈ rest := (all_pairs_mem hpq2).1
        simp only [decide_eq_true_eq]
        rintro ⟨hp1, _, _⟩
        exact hzn (List.mem_map.mpr ⟨pq2.1, hf, h1.symm.trans hp1⟩)
      rw [hpart2, Nat.add_zero, row_flatMap_eq]
      exact countP_row hd hnd hy hrestn
    · have hpfst : p ∈ rest := (all_pairs_mem hmem).1
      have hpart1 : ((rest.map (fun y => (z, y))).flatMap
          (fun pq => emit_aspects pq.1 pq.2 defns)).countP
          (fun a => decide (a.planet1 = p.planet ∧ a.planet2 = q.planet
            ∧ a.aspectName = d.name)) = 0 := by
        rw [row_flatMap_eq, List.countP_eq_zero]
        intro a ha
        rw [List.mem_flatMap] at ha
        obtain ⟨y2, hy2, hmem2⟩ := ha
        obtain ⟨h1, _, _⟩ := mem_emit_aspects hmem2
        simp only [decide_eq_true_eq]
        rintro ⟨hp1, _, _⟩
        exact hzn (List.mem_map.mpr ⟨p, hpfst, (h1.symm.trans hp1).symm⟩)
      rw [hpart1, Nat.zero_add]
      exact ih hrestn hmem

/-- C5: for distinct planet names and distinct definition names,
`calculate_aspects` emits exactly one aspect per (unordered pair,
definition) with `|separation - exact| ≤ orb tolerance`; every emitted orb
is the 2-decimal rounding of `|separation - exact|` (hence nonnegative);
the output is sorted ascending by orb; and the sort is stable — for every
orb value, the subsequence with that orb keeps discovery order. -/
theorem calculate_aspects_spec (positions : List PlanetPosition) (defns : List AspectDef)
    (hp : (positions.map (fun r => r.planet)).Nodup)
    (hnd : (defns.map (fun e => e.name)).Nodup) :
    List.Sorted (fun a b : ChartAspect => a.orb ≤ b.orb)
        (calculate_aspects positions defns) ∧
    (calculate_aspects positions defns).Perm (aspect_candidates positions defns) ∧
    (∀ v : ℝ, (calculate_aspects positions defns).filter (fun y => decide (y.orb = v))
        = (aspect_candidates positions defns).filter (fun y => decide (y.orb = v))) ∧
    (∀ a ∈ calculate_aspects positions defns,
      0 ≤ a.orb ∧ ∃ pq ∈ all_pairs positions, ∃ d ∈ defns,
        a.orb = round2 |pair_separation pq.1 pq.2 - d.degrees| ∧
        |pair_separation pq.1 pq.2 - d.degrees| ≤ d.orb) ∧
    (∀ (p q : PlanetPosition) (d : AspectDef),
      (p, q) ∈ all_pairs positions → d ∈ defns →
      (calculate_aspects positions defns).countP
          (fun a => decide (a.planet1 = p.planet ∧ a.planet2 = q.planet
            ∧ a.aspectName = d.name))
        = if |pair_separation p q - d.degrees| ≤ d.orb then 1 else 0) := by
  have hperm : (calculate_aspects positions defns).Perm (aspect_candidates positions defns) :=
    List.perm_insertionSort _ _
  refine ⟨?_, hperm, fun v => filter_insertionSort v _, ?_, ?_⟩
  · haveI h1 : IsTotal ChartAspect (fun a b => a.orb ≤ b.orb) := ⟨fun a b => le_total _ _⟩
    haveI h2 : IsTrans ChartAspect (fun a b => a.orb ≤ b.orb) :=
      ⟨fun _ _ _ ha hb => le_trans ha hb⟩
    exact List.sorted_insertionSort _ _
  · intro a ha
    have hmem := hperm.mem_iff.mp ha
    unfold aspect_candidates at hmem
    rw [List.mem_flatMap] at hmem
    obtain ⟨pq, hpq, hmem2⟩ := hmem
    obtain ⟨_, _, d, hd, _, horb, hcond⟩ := mem_emit_aspects hmem2
    refine ⟨?_, pq, hpq, d, hd, horb, hcond⟩
    rw [horb]
    exact round2_nonneg (abs_nonneg _)
  · intro p q d hpq hd
    rw [hperm.countP_eq]
    exact countP_candidates hd hnd hp hpq

/-- Concrete positions and definition for the C5 witness. -/
def wpos1 : PlanetPosition :=
  { planet := "sun", sign := "aries", degrees := 0, totalDegrees := 0
    house := 1, retrograde := false }

def wpos2 : PlanetPosition :=
  { planet := "moon", sign := "capricorn", degrees := 0, totalDegrees := 270
    house := 10, retrograde := false }

def wdef1 : AspectDef :=
  { name := "square", symbol := "sq", degrees := 90, orb := 6, nature := "challenging" }

/-- Witness for C5 on a two-planet list and one definition. -/
theorem calculate_aspects_spec_witness :
    (([wpos1, wpos2].map (fun r => r.planet)).Nodup ∧
      ([wdef1].map (fun e => e.name)).Nodup) ∧
    List.Sorted (fun a b : ChartAspect => a.orb ≤ b.orb)
      (calculate_aspects [wpos1, wpos2] [wdef1]) := by
  have h1 : (([wpos1, wpos2] : List PlanetPosition).map (fun r => r.planet)).Nodup := by
    show (["sun", "moon"] : List String).Nodup
    decide
  have h2 : (([wdef1] : List AspectDef).map (fun e => e.name)).Nodup := by
    show (["square"] : List String).Nodup
    decide
  exact ⟨⟨h1, h2⟩, (calculate_aspects_spec [wpos1, wpos2] [wdef1] h1 h2).1⟩
